import Mathlib

/-!
Shallow embedding of `src/dags/titanic.py`, function `validate_and_insert_titanic`.

Modelling choices:
- A cell value is `Option PyScalar`: `none` models a missing value (null/NaN
  as detected by `pd.isna`); a present value carries its numeric value `val`
  (a rational) together with `isInstNum`, the truth value of
  `isinstance(value, (int, float))` for the scalar that `iterrows` hands the
  loop.  `np.float64` subclasses Python `float`, so float-dtyped columns
  yield `isInstNum = true`; `np.int64` does not subclass Python `int`, so an
  all-integer-dtyped frame yields `isInstNum = false` for its values.
  Python compares ints and floats with `==`, so integer and float
  representations of the same number (0 vs 0.0, 1 vs 1.0) collapse to the
  same rational, exactly as `in [0, 1, 0.0, 1.0]` treats them.
- A dataframe is a list of column headers (name plus a numeric-dtype flag,
  standing for `pd.api.types.is_numeric_dtype`) together with positional
  rows.
- `pd.read_csv` and the SQLite insert are external effects: the loader
  result is an `Except String DataFrame` parameter, the insert outcome an
  `insertOk : Bool` parameter.
- Every `sys.exit(1)` becomes an `Except.error` carrying a `FatalError`
  constructor naming the failure; the stats dictionary is only returned via
  `Except.ok`, mirroring that `return stats` is only reached on full success.
-/

/-- One scalar cell value as `df.iterrows()` yields it: its numeric value
and whether `isinstance(value, (int, float))` holds for the underlying
scalar (true for Python int/float and `np.float64`, false for e.g.
`np.int64` from an all-integer-dtyped frame). -/
structure PyScalar where
  val : ℚ
  isInstNum : Bool
deriving DecidableEq, Repr

/-- One column header of the loaded dataframe: its label and whether
`pd.api.types.is_numeric_dtype` holds for the column. -/
structure ColInfo where
  name : String
  numeric : Bool
deriving DecidableEq, Repr

/-- The loaded CSV: column headers plus rows, each row a positional list of
cells aligned with the columns. -/
structure DataFrame where
  cols : List ColInfo
  rows : List (List (Option PyScalar))
deriving DecidableEq, Repr

/-- The `stats` dictionary of lines 23-28. -/
structure RunStats where
  total_rows : ℕ
  inserted_rows : ℕ
  skipped_rows : ℕ
  warnings : List String
deriving DecidableEq, Repr

/-- The fatal conditions, one per `sys.exit(1)` site of the source (lines 37,
51, 64, 69, 117, 135). -/
inductive FatalError where
  | loadError (msg : String)
  | schemaError (missing : List String) (available : List String)
  | typeError (col : String)
  | emptyResultError
  | insertError
deriving DecidableEq, Repr

/-- Rendering of a numeric cell value inside a diagnostic message (Python
interpolates the scalar itself; the exact digits are not load-bearing). -/
def pyRepr (v : ℚ) : String := toString v

/-- The warning text of line 86 for an invalid Survived value. -/
def survivedWarning (row_num : ℕ) (v : ℚ) : String :=
  "Row " ++ toString row_num ++ ": Invalid Survived value " ++ pyRepr v ++
    " (must be 0 or 1). Skipping row."

/-- The warning text of line 98 for an invalid Age value. -/
def ageWarning (row_num : ℕ) (v : ℚ) : String :=
  "Row " ++ toString row_num ++ ": Invalid Age value " ++ pyRepr v ++
    " (must be 0-120). Skipping row."

/-- Lines 80-90: validate the Survived cell of one row.  Returns the emitted
warnings, the `skip_row` contribution, and the cleaned value (`None` when the
input was missing).  The membership test `survived_val not in [0, 1, 0.0,
1.0]` uses Python `==`, hence only the numeric value: `¬(v.val = 0 ∨ v.val =
1)` over ℚ. -/
def validateSurvived (row_num : ℕ) (survived_val : Option PyScalar) :
    List String × Bool × Option PyScalar :=
  match survived_val with
  | none => ([], false, none)
  | some v =>
    if ¬(v.val = 0 ∨ v.val = 1) then
      ([survivedWarning row_num v.val], true, some v)
    else
      ([], false, some v)

/-- Lines 93-102: validate the Age cell of one row.  Line 97 rejects when
`not isinstance(age_val, (int, float)) or age_val < 0 or age_val > 120`:
a present value that is not a Python int/float instance (e.g. `np.int64`
from an all-integer frame) is rejected regardless of its range. -/
def validateAge (row_num : ℕ) (age_val : Option PyScalar) :
    List String × Bool × Option PyScalar :=
  match age_val with
  | none => ([], false, none)
  | some v =>
    if v.isInstNum = false ∨ v.val < 0 ∨ v.val > 120 then
      ([ageWarning row_num v.val], true, some v)
    else
      ([], false, some v)

/-- Lines 77-109: the body of the per-row loop.  `si`/`ai` are the positions
of the Survived and Age columns.  Both field validations always run (there is
no `continue` after the Survived check); each emitted warning is paired with
one `skipped_rows` increment; the cleaned row (lines 105-108) is built only
when `skip_row` stayed false. -/
def processRow (row_num si ai : ℕ) (row : List (Option PyScalar)) :
    List String × ℕ × Option (List (Option PyScalar)) :=
  let (sWarns, sSkip, survived_val) := validateSurvived row_num (row.getD si none)
  let (aWarns, aSkip, age_val) := validateAge row_num (row.getD ai none)
  (sWarns ++ aWarns,
   (cond sSkip 1 0) + (cond aSkip 1 0),
   if sSkip || aSkip then none
   else some ((row.set si survived_val).set ai age_val))

/-- The `for idx, row in df.iterrows()` loop of line 76: `idx` is the default
positional index, `row_num = idx + 2` (line 78).  Accumulates warnings, the
`skipped_rows` counter and `valid_rows`, all in input order. -/
def processRowsAux (si ai idx : ℕ) :
    List (List (Option PyScalar)) → List String × ℕ × List (List (Option PyScalar))
  | [] => ([], 0, [])
  | r :: rest =>
    let (w, k, acc) := processRow (idx + 2) si ai r
    let (ws, ks, vs) := processRowsAux si ai (idx + 1) rest
    (w ++ ws, k + ks,
     match acc with
     | some c => c :: vs
     | none => vs)

/-- The whole row-processing phase, starting from index 0. -/
def processRows (si ai : ℕ) (rows : List (List (Option PyScalar))) :
    List String × ℕ × List (List (Option PyScalar)) :=
  processRowsAux si ai 0 rows

/-- Python `str.strip()`: drop leading and trailing whitespace.  Written over
the character list so that it evaluates by kernel reduction. -/
def strTrim (s : String) : String :=
  String.mk (((s.data.dropWhile Char.isWhitespace).reverse.dropWhile Char.isWhitespace).reverse)

/-- Python `str.lower()` (ASCII case folding, which covers the column labels
involved). -/
def strToLower (s : String) : String :=
  String.mk (s.data.map Char.toLower)

/-- Line 40: `df.columns.str.strip()` — trim every column label. -/
def trimCols (cols : List ColInfo) : List ColInfo :=
  cols.map fun c => { c with name := strTrim c.name }

/-- Line 41: `column_map = {col.lower(): col for col in df.columns}` —
lookup of a lowercase key; a later duplicate key overwrites an earlier one,
so the reversed list is searched. -/
def columnMap (colNames : List String) (key : String) : Option String :=
  colNames.reverse.find? fun c => strToLower c = key

/-- Line 44: the required schema columns. -/
def requiredCols : List String := ["age", "survived"]

/-- Line 45: required columns absent from `column_map`. -/
def missingCols (colNames : List String) : List String :=
  requiredCols.filter fun c => columnMap colNames c = none

/-- The (trimmed) column labels of the dataframe, as `list(df.columns)` after
line 40. -/
def colNamesOf (df : DataFrame) : List String :=
  (trimCols df.cols).map (·.name)

/-- Line 55: `age_col = column_map['age']` (original-case trimmed label). -/
def ageColOf (df : DataFrame) : String :=
  (columnMap (colNamesOf df) "age").getD ""

/-- Line 56: `survived_col = column_map['survived']`. -/
def survivedColOf (df : DataFrame) : String :=
  (columnMap (colNamesOf df) "survived").getD ""

/-- `pd.api.types.is_numeric_dtype(df[name])`: dtype flag of the first
column labelled `name`. -/
def colNumeric (cols : List ColInfo) (name : String) : Bool :=
  match cols.find? (fun c => c.name = name) with
  | some c => c.numeric
  | none => false

/-- Position of the Survived column (row cells are fetched positionally). -/
def siOf (df : DataFrame) : ℕ :=
  (trimCols df.cols).findIdx fun c => c.name = survivedColOf df

/-- Position of the Age column. -/
def aiOf (df : DataFrame) : ℕ :=
  (trimCols df.cols).findIdx fun c => c.name = ageColOf df

/-- Row-processing result of the dataframe. -/
def rowResultsOf (df : DataFrame) : List String × ℕ × List (List (Option PyScalar)) :=
  processRows (siOf df) (aiOf df) df.rows

/-- `stats['warnings']` after the loop. -/
def warningsOf (df : DataFrame) : List String := (rowResultsOf df).1

/-- `stats['skipped_rows']` after the loop. -/
def skippedOf (df : DataFrame) : ℕ := (rowResultsOf df).2.1

/-- `valid_rows` after the loop. -/
def validRowsOf (df : DataFrame) : List (List (Option PyScalar)) := (rowResultsOf df).2.2

/-- Lines 30-136: the whole of `validate_and_insert_titanic`.  `loadResult`
stands for the `pd.read_csv` attempt, `insertOk` for the outcome of the
`to_sql` insert.  Each `sys.exit(1)` site becomes the matching `FatalError`;
`return stats` (line 136) is the single `Except.ok`. -/
def validate_and_insert_titanic (loadResult : Except String DataFrame) (insertOk : Bool) :
    Except FatalError RunStats :=
  match loadResult with
  | Except.error e => Except.error (FatalError.loadError e)
  | Except.ok df =>
    if missingCols (colNamesOf df) ≠ [] then
      Except.error (FatalError.schemaError (missingCols (colNamesOf df)) (colNamesOf df))
    else if colNumeric (trimCols df.cols) (survivedColOf df) = false then
      Except.error (FatalError.typeError "Survived")
    else if colNumeric (trimCols df.cols) (ageColOf df) = false then
      Except.error (FatalError.typeError "Age")
    else if (validRowsOf df).length = 0 then
      Except.error FatalError.emptyResultError
    else if insertOk then
      Except.ok { total_rows := df.rows.length,
                  inserted_rows := (validRowsOf df).length,
                  skipped_rows := skippedOf df,
                  warnings := warningsOf df }
    else
      Except.error FatalError.insertError

/-- Does the Survived field rule reject this cell?  (`pd.isna` → no; present
value outside the acceptable set → yes.) -/
def survivedViolates : Option PyScalar → Bool
  | none => false
  | some v => decide (¬(v.val = 0 ∨ v.val = 1))

/-- Does the Age field rule reject this cell?  (Missing → no; present value
that is not an int/float instance, or out of range → yes.) -/
def ageViolates : Option PyScalar → Bool
  | none => false
  | some v => decide (v.isInstNum = false ∨ v.val < 0 ∨ v.val > 120)

/-- Number of field-rule violations in one row. -/
def violationCount (s a : Option PyScalar) : ℕ :=
  (cond (survivedViolates s) 1 0) + (cond (ageViolates a) 1 0)

/-- Warnings a single row should produce, one per violated field, the
Survived field's first. -/
def rowWarningsSpec (row_num : ℕ) (s a : Option PyScalar) : List String :=
  (match s with
   | none => []
   | some v => if survivedViolates (some v) then [survivedWarning row_num v.val] else []) ++
  (match a with
   | none => []
   | some v => if ageViolates (some v) then [ageWarning row_num v.val] else [])

example : processRow 2 0 1 [some ⟨5, true⟩, some ⟨200, true⟩] =
    ([survivedWarning 2 5, ageWarning 2 200], 2, none) := by decide

example : processRow 2 0 1 [some ⟨1, true⟩, some ⟨30, true⟩] =
    ([], 0, some [some ⟨1, true⟩, some ⟨30, true⟩]) := by decide

example : processRow 2 0 1 [some ⟨1, true⟩, some ⟨30, false⟩] =
    ([ageWarning 2 30], 1, none) := by decide

/-! ### Helper lemmas about one row -/

theorem processRow_warns (rn si ai : ℕ) (row : List (Option PyScalar)) :
    (processRow rn si ai row).1 =
      rowWarningsSpec rn (row.getD si none) (row.getD ai none) := by
  cases hs : row.getD si none <;> cases ha : row.getD ai none <;>
    simp only [processRow, validateSurvived, validateAge, rowWarningsSpec,
      survivedViolates, ageViolates, Bool.cond_decide, decide_eq_true_eq, hs, ha] <;>
    (try split_ifs) <;> simp_all

theorem processRow_inc (rn si ai : ℕ) (row : List (Option PyScalar)) :
    (processRow rn si ai row).2.1 =
      violationCount (row.getD si none) (row.getD ai none) := by
  cases hs : row.getD si none <;> cases ha : row.getD ai none <;>
    simp only [processRow, validateSurvived, validateAge, violationCount,
      survivedViolates, ageViolates, Bool.cond_decide, decide_eq_true_eq, hs, ha] <;>
    (try split_ifs) <;> simp_all

theorem processRow_rejected_iff (rn si ai : ℕ) (row : List (Option PyScalar)) :
    ((processRow rn si ai row).2.2 = none ↔
      violationCount (row.getD si none) (row.getD ai none) ≠ 0) := by
  cases hs : row.getD si none <;> cases ha : row.getD ai none <;>
    simp only [processRow, validateSurvived, validateAge, violationCount,
      survivedViolates, ageViolates, Bool.cond_decide, decide_eq_true_eq, hs, ha] <;>
    (try split_ifs) <;> simp_all

theorem rowWarningsSpec_length (rn : ℕ) (s a : Option PyScalar) :
    (rowWarningsSpec rn s a).length = violationCount s a := by
  cases s <;> cases a <;>
    simp only [rowWarningsSpec, violationCount, survivedViolates, ageViolates,
      Bool.cond_decide, decide_eq_true_eq] <;>
    (try split_ifs) <;> simp_all

theorem processRowsAux_warns_join (si ai idx : ℕ) (rows : List (List (Option PyScalar))) :
    (processRowsAux si ai idx rows).1 =
      ((List.enumFrom idx rows).map
        (fun p => rowWarningsSpec (p.1 + 2) (p.2.getD si none) (p.2.getD ai none))).flatten := by
  induction rows generalizing idx with
  | nil => simp [processRowsAux]
  | cons r rest ih =>
    simp only [processRowsAux, List.enumFrom, List.map, List.flatten_cons, ih (idx + 1)]
    rw [processRow_warns]

theorem processRowsAux_warn_eq_skip (si ai idx : ℕ) (rows : List (List (Option PyScalar))) :
    ((processRowsAux si ai idx rows).1).length = (processRowsAux si ai idx rows).2.1 := by
  induction rows generalizing idx with
  | nil => simp [processRowsAux]
  | cons r rest ih =>
    simp only [processRowsAux, List.length_append, ih (idx + 1)]
    rw [processRow_warns, rowWarningsSpec_length, processRow_inc]

theorem getElem?_set_none {α : Type} (l : List (Option α)) (n : ℕ) :
    (l.set n none)[n]?.getD none = none := by
  induction l generalizing n with
  | nil => simp
  | cons x xs ih =>
    cases n with
    | zero => simp
    | succ m => simpa using ih m

theorem processRow_accepted_iff (rn si ai : ℕ) (row : List (Option PyScalar)) :
    ((processRow rn si ai row).2.2 ≠ none ↔
      (survivedViolates (row.getD si none) = false ∧
        ageViolates (row.getD ai none) = false)) := by
  cases hs : row.getD si none <;> cases ha : row.getD ai none <;>
    simp only [processRow, validateSurvived, validateAge,
      survivedViolates, ageViolates, Bool.cond_decide, decide_eq_true_eq, hs, ha] <;>
    (try split_ifs) <;> simp_all

/-- Equality of run results is decidable, so concrete runs can be settled by
`decide`. -/
instance {e a : Type} [DecidableEq e] [DecidableEq a] : DecidableEq (Except e a) := fun x y =>
  match x, y with
  | Except.error u, Except.error v => decidable_of_iff (u = v) (by simp)
  | Except.error _, Except.ok _ => isFalse (by simp)
  | Except.ok _, Except.error _ => isFalse (by simp)
  | Except.ok u, Except.ok v => decidable_of_iff (u = v) (by simp)

/-! ### Claim theorems -/

/-- C1, counterexample: the row `[Survived = 5, Age = 200]` (float-typed
cells, as the production CSV yields) is marked for rejection at the Survived
check, yet the Age rule is still evaluated and a second violation (warning
and `skipped_rows` increment) is recorded — the claim's "at most one
violation per rejected row" is false. -/
theorem C1_counterexample :
    (processRow 2 0 1 [some ⟨5, true⟩, some ⟨200, true⟩]).2.2 = none ∧
      ((processRow 2 0 1 [some ⟨5, true⟩, some ⟨200, true⟩]).1).length = 2 ∧
      (processRow 2 0 1 [some ⟨5, true⟩, some ⟨200, true⟩]).2.1 = 2 := by decide

/-- C1, amended: evaluation is not short-circuit.  Both field rules run for
every row regardless of earlier violations; a row records one violation
(warning plus `skipped_rows` increment) per violated field — up to two —
and is accepted exactly when it has zero violations.  The Age rule here
includes line 97's `isinstance` disjunct: a present Age value that is not a
Python int/float instance violates the rule regardless of its range. -/
theorem C1_amended (rn si ai : ℕ) (row : List (Option PyScalar)) :
    ((processRow rn si ai row).1).length =
        violationCount (row.getD si none) (row.getD ai none) ∧
      (processRow rn si ai row).2.1 =
        violationCount (row.getD si none) (row.getD ai none) ∧
      ((processRow rn si ai row).2.2 = none ↔
        violationCount (row.getD si none) (row.getD ai none) ≠ 0) := by
  refine ⟨?_, processRow_inc rn si ai row, processRow_rejected_iff rn si ai row⟩
  rw [processRow_warns, rowWarningsSpec_length]

/-- C10: at every point of the row loop (after any number `k` of processed
rows) and hence at function return, the length of `stats['warnings']` equals
`stats['skipped_rows']`: every append is paired with exactly one increment,
also when a single row triggers both a Survived and an Age violation, and
also on the `isinstance`-triggered Age path. -/
theorem C10_warnings_length_eq_skipped (si ai k : ℕ) (rows : List (List (Option PyScalar))) :
    ((processRows si ai (rows.take k)).1).length =
      (processRows si ai (rows.take k)).2.1 :=
  processRowsAux_warn_eq_skip si ai 0 (rows.take k)

/-- A loaded CSV (float-typed values, `isInstNum = true`) whose first row
violates both field rules (Survived = 5.0, Age = 200.0) and whose second row
is valid. -/
def df_doubleViolation : DataFrame :=
  { cols := [{ name := "Survived", numeric := true }, { name := "Age", numeric := true }],
    rows := [[some ⟨5, true⟩, some ⟨200, true⟩], [some ⟨1, true⟩, some ⟨30, true⟩]] }

/-- C2: the claimed identity `total_rows == inserted_rows + skipped_rows`
fails on a successful run.  On `df_doubleViolation` the run succeeds with
`total_rows = 2` and `inserted_rows = 1`, but the doubly-violating first row
incremented `skipped_rows` twice, so `skipped_rows = 2` and
`inserted_rows + skipped_rows = 3 ≠ 2`. -/
theorem C2_failing_run :
    validate_and_insert_titanic (Except.ok df_doubleViolation) true =
      Except.ok { total_rows := 2, inserted_rows := 1, skipped_rows := 2,
                  warnings := [survivedWarning 2 5, ageWarning 2 200] } ∧
    (1 + 2 : ℕ) ≠ 2 := by
  constructor
  · decide
  · decide

/-- A loaded CSV (float-typed values) whose first row violates both rules
(Survived = 7.0, Age = 130.0) and whose second row is valid. -/
def df_bothFieldsBad : DataFrame :=
  { cols := [{ name := "Survived", numeric := true }, { name := "Age", numeric := true }],
    rows := [[some ⟨7, true⟩, some ⟨130, true⟩], [some ⟨0, true⟩, some ⟨5, true⟩]] }

/-- C3, counterexample: on `df_bothFieldsBad` the run succeeds with exactly
one rejected row (`total_rows - inserted_rows = 1`), yet the returned
warnings sequence has two entries — the claimed "exactly one diagnostic
string per rejected row" is false. -/
theorem C3_counterexample :
    validate_and_insert_titanic (Except.ok df_bothFieldsBad) true =
      Except.ok { total_rows := 2, inserted_rows := 1, skipped_rows := 2,
                  warnings := [survivedWarning 2 7, ageWarning 2 130] } ∧
    [survivedWarning 2 7, ageWarning 2 130].length ≠ 2 - 1 := by
  constructor
  · decide
  · decide

/-- C3, amended: the warnings sequence contains one diagnostic string per
field violation — a rejected row contributes one string per violated field
(the Survived one first; Age's rule includes line 97's `isinstance`
disjunct), so a row violating both rules contributes two — and the per-row
contributions are appended in the rows' original input order. -/
theorem C3_amended (si ai : ℕ) (rows : List (List (Option PyScalar))) :
    (processRows si ai rows).1 =
      ((List.enumFrom 0 rows).map
        (fun p => rowWarningsSpec (p.1 + 2) (p.2.getD si none) (p.2.getD ai none))).flatten :=
  processRowsAux_warns_join si ai 0 rows

/-- C4: a missing (NaN) value in either null-substitute field never rejects
the row by itself.  First part, missing Age: the row's warnings are exactly
the Survived field's (no Age diagnostic), the row is accepted iff the
Survived rule does not reject it (evaluation of the other field continues),
and the accepted row's cleaned Age cell is an explicit null.  Second part,
missing Survived: symmetrically, the warnings are exactly the Age field's,
acceptance depends only on the Age rule, and the accepted row's cleaned
Survived cell is an explicit null. -/
theorem C4_null_substitute (rn si ai : ℕ) (row : List (Option PyScalar)) :
    (row.getD ai none = none →
      ((processRow rn si ai row).1 = rowWarningsSpec rn (row.getD si none) none ∧
        ((processRow rn si ai row).2.2 ≠ none ↔
          survivedViolates (row.getD si none) = false) ∧
        (((processRow rn si ai row).2.2).getD []).getD ai none = none)) ∧
    (row.getD si none = none →
      ((processRow rn si ai row).1 = rowWarningsSpec rn none (row.getD ai none) ∧
        ((processRow rn si ai row).2.2 ≠ none ↔
          ageViolates (row.getD ai none) = false) ∧
        (((processRow rn si ai row).2.2).getD []).getD si none = none)) := by
  constructor
  · intro ha
    refine ⟨?_, ?_, ?_⟩
    · rw [processRow_warns, ha]
    · rw [processRow_accepted_iff, ha]
      simp [ageViolates]
    · rcases hvs : validateSurvived rn (row.getD si none) with ⟨sW, sSkip, sv⟩
      simp only [processRow, ha, validateAge, hvs]
      cases sSkip <;> simp [getElem?_set_none]
  · intro hs
    refine ⟨?_, ?_, ?_⟩
    · rw [processRow_warns, hs]
    · rw [processRow_accepted_iff, hs]
      simp [survivedViolates]
    · rcases hva : validateAge rn (row.getD ai none) with ⟨aW, aSkip, av⟩
      simp only [processRow, hs, validateSurvived, hva]
      cases aSkip <;> simp
      by_cases hij : si = ai
      · subst hij
        rw [hs] at hva
        have hav : av = none := by
          simpa [validateAge] using congrArg (fun p => p.2.2) hva.symm
        rw [hav, List.set_set]
        exact getElem?_set_none row si
      · rw [List.getElem?_set_ne (Ne.symm hij)]
        exact getElem?_set_none row si

/-- C4 witness: a row with Survived = 1.0 and Age missing, and a row with
Survived missing and Age = 30.0, both at row number 2. -/
theorem C4_witness :
    ([some ⟨1, true⟩, (none : Option PyScalar)].getD 1 none = none) ∧
    ((processRow 2 0 1 [some ⟨1, true⟩, (none : Option PyScalar)]).1 =
        rowWarningsSpec 2 ([some ⟨1, true⟩, (none : Option PyScalar)].getD 0 none) none ∧
      ((processRow 2 0 1 [some ⟨1, true⟩, (none : Option PyScalar)]).2.2 ≠ none ↔
        survivedViolates ([some ⟨1, true⟩, (none : Option PyScalar)].getD 0 none) = false) ∧
      (((processRow 2 0 1 [some ⟨1, true⟩, (none : Option PyScalar)]).2.2).getD
        []).getD 1 none = none) ∧
    ([(none : Option PyScalar), some ⟨30, true⟩].getD 0 none = none) ∧
    ((processRow 2 0 1 [(none : Option PyScalar), some ⟨30, true⟩]).1 =
        rowWarningsSpec 2 none ([(none : Option PyScalar), some ⟨30, true⟩].getD 1 none) ∧
      ((processRow 2 0 1 [(none : Option PyScalar), some ⟨30, true⟩]).2.2 ≠ none ↔
        ageViolates ([(none : Option PyScalar), some ⟨30, true⟩].getD 1 none) = false) ∧
      (((processRow 2 0 1 [(none : Option PyScalar), some ⟨30, true⟩]).2.2).getD
        []).getD 0 none = none) :=
  ⟨by decide,
    (C4_null_substitute 2 0 1 [some ⟨1, true⟩, none]).1 (by decide),
    by decide,
    (C4_null_substitute 2 0 1 [none, some ⟨30, true⟩]).2 (by decide)⟩

/-- C5, counterexample: the Age cell `np.int64(0)` — numeric value exactly
at the lower boundary, but not a Python int/float instance, as an
all-integer-dtyped frame yields — is rejected with an Age diagnostic even
though Survived is valid, refuting "a value exactly at the lower or upper
boundary is accepted". -/
theorem C5_counterexample :
    (processRow 2 0 1 [some ⟨0, true⟩, some ⟨0, false⟩]).2.2 = none ∧
    (processRow 2 0 1 [some ⟨0, true⟩, some ⟨0, false⟩]).1 = [ageWarning 2 0] ∧
    (0 ≤ (0 : ℚ) ∧ (0 : ℚ) ≤ 120) := by decide

/-- C5, amended: for a present Age value that is a Python int/float instance
(as float-dtyped columns yield), the bounds are an inclusive closed
interval: the row is accepted exactly when the Survived rule does not reject
it and `0 ≤ v ∧ v ≤ 120`, so the boundaries 0 and 120 are accepted and one
unit beyond is rejected (see the witness); but a present numeric value that
is not an int/float instance (e.g. `np.int64` from an all-integer frame,
line 97's `isinstance` test) is rejected regardless of its range. -/
theorem C5_inclusive_bounds (rn si ai : ℕ) (row : List (Option PyScalar)) (v : PyScalar)
    (ha : row.getD ai none = some v) :
    (v.isInstNum = true →
      ((processRow rn si ai row).2.2 ≠ none ↔
        (survivedViolates (row.getD si none) = false ∧ 0 ≤ v.val ∧ v.val ≤ 120))) ∧
    (v.isInstNum = false → (processRow rn si ai row).2.2 = none) := by
  constructor
  · intro hinst
    rw [processRow_accepted_iff, ha]
    simp [ageViolates, hinst, decide_eq_false_iff_not, not_or, not_lt]
  · intro hfalse
    by_contra hne
    have hacc := (processRow_accepted_iff rn si ai row).mp hne
    rw [ha] at hacc
    simp [ageViolates, hfalse] at hacc

/-- C5 witness: with Survived = 0, float-instance Ages 0 and 120 (exact
boundaries) are accepted; −1 and 121 (one unit beyond) are rejected; a
non-instance Age 30 is rejected although in range. -/
theorem C5_witness :
    ((processRow 2 0 1 [some ⟨0, true⟩, some ⟨0, true⟩]).2.2 ≠ none) ∧
    ((processRow 2 0 1 [some ⟨0, true⟩, some ⟨120, true⟩]).2.2 ≠ none) ∧
    ((processRow 2 0 1 [some ⟨0, true⟩, some ⟨-1, true⟩]).2.2 = none) ∧
    ((processRow 2 0 1 [some ⟨0, true⟩, some ⟨121, true⟩]).2.2 = none) ∧
    ((processRow 2 0 1 [some ⟨0, true⟩, some ⟨30, false⟩]).2.2 = none) := by
  refine ⟨?_, ?_, ?_, ?_, ?_⟩
  · exact ((C5_inclusive_bounds 2 0 1 [some ⟨0, true⟩, some ⟨0, true⟩] ⟨0, true⟩
      (by decide)).1 rfl).mpr (by decide)
  · exact ((C5_inclusive_bounds 2 0 1 [some ⟨0, true⟩, some ⟨120, true⟩] ⟨120, true⟩
      (by decide)).1 rfl).mpr (by decide)
  · by_contra hne
    exact absurd (((C5_inclusive_bounds 2 0 1 [some ⟨0, true⟩, some ⟨-1, true⟩] ⟨-1, true⟩
      (by decide)).1 rfl).mp hne) (by decide)
  · by_contra hne
    exact absurd (((C5_inclusive_bounds 2 0 1 [some ⟨0, true⟩, some ⟨121, true⟩] ⟨121, true⟩
      (by decide)).1 rfl).mp hne) (by decide)
  · exact (C5_inclusive_bounds 2 0 1 [some ⟨0, true⟩, some ⟨30, false⟩] ⟨30, false⟩
      (by decide)).2 rfl

/-- C6: a present Survived value outside the acceptable set rejects the row:
the Survived rule fires (warning emitted, `skip_row` set) and the row is not
accepted.  The membership test uses only the numeric value (Python `==`
identifies int and float representations; there is no `isinstance` test on
this field), so both acceptable values are accepted in either
representation: `validateSurvived` leaves 0 and 1 untouched whether the
scalar is an int/float instance (0.0, 1.0 from a float column) or not
(np.int64 0, 1 from an integer column). -/
theorem C6_enumerated_set (rn si ai : ℕ) (row : List (Option PyScalar)) (v : PyScalar)
    (hs : row.getD si none = some v) (hv : ¬(v.val = 0 ∨ v.val = 1)) :
    validateSurvived rn (some v) = ([survivedWarning rn v.val], true, some v) ∧
    (processRow rn si ai row).2.2 = none ∧
    validateSurvived rn (some ⟨0, false⟩) = ([], false, some ⟨0, false⟩) ∧
    validateSurvived rn (some ⟨0, true⟩) = ([], false, some ⟨0, true⟩) ∧
    validateSurvived rn (some ⟨1, false⟩) = ([], false, some ⟨1, false⟩) ∧
    validateSurvived rn (some ⟨1, true⟩) = ([], false, some ⟨1, true⟩) := by
  refine ⟨by simp [validateSurvived, hv], ?_, by norm_num [validateSurvived],
    by norm_num [validateSurvived], by norm_num [validateSurvived],
    by norm_num [validateSurvived]⟩
  by_contra hne
  have hacc := (processRow_accepted_iff rn si ai row).mp hne
  rw [hs] at hacc
  simp [survivedViolates, hv] at hacc

/-- C6 witness: row `[Survived = 5.0, Age = 30.0]` at row number 2. -/
theorem C6_witness :
    validateSurvived 2 (some ⟨5, true⟩) = ([survivedWarning 2 5], true, some ⟨5, true⟩) ∧
    (processRow 2 0 1 [some ⟨5, true⟩, some ⟨30, true⟩]).2.2 = none ∧
    validateSurvived 2 (some ⟨0, false⟩) = ([], false, some ⟨0, false⟩) ∧
    validateSurvived 2 (some ⟨0, true⟩) = ([], false, some ⟨0, true⟩) ∧
    validateSurvived 2 (some ⟨1, false⟩) = ([], false, some ⟨1, false⟩) ∧
    validateSurvived 2 (some ⟨1, true⟩) = ([], false, some ⟨1, true⟩) :=
  C6_enumerated_set 2 0 1 [some ⟨5, true⟩, some ⟨30, true⟩] ⟨5, true⟩ (by decide) (by decide)

/-- C7: when at least one required schema column is missing (after trimming
and case-insensitive matching), the run fails with a `SchemaError` carrying
exactly the computed missing names and the full set of (trimmed) available
column labels, for either insert outcome — the fatal return means no
row-level processing happened and no diagnostics were produced. -/
theorem C7_schema_fatal (df : DataFrame) (insertOk : Bool)
    (h : missingCols (colNamesOf df) ≠ []) :
    validate_and_insert_titanic (Except.ok df) insertOk =
      Except.error (FatalError.schemaError (missingCols (colNamesOf df)) (colNamesOf df)) := by
  simp [validate_and_insert_titanic, h]

/-- A loaded CSV with neither an Age nor a Survived column (the one label it
has needs trimming, exercising the normalisation). -/
def df_noRequiredCols : DataFrame :=
  { cols := [{ name := " PassengerId ", numeric := true }], rows := [[some ⟨1, true⟩]] }

/-- C7 witness: a dataframe with only a `PassengerId` column. -/
theorem C7_witness :
    (missingCols (colNamesOf df_noRequiredCols) ≠ []) ∧
    validate_and_insert_titanic (Except.ok df_noRequiredCols) true =
      Except.error (FatalError.schemaError (missingCols (colNamesOf df_noRequiredCols))
        (colNamesOf df_noRequiredCols)) :=
  ⟨by decide, C7_schema_fatal df_noRequiredCols true (by decide)⟩

/-- C8: when every row is rejected (the accepted sequence is empty after the
loop), the run fails with the empty-result error, for either insert outcome
— in particular also when the insert would fail, showing no insert is
attempted. -/
theorem C8_empty_fatal (df : DataFrame) (insertOk : Bool)
    (h1 : missingCols (colNamesOf df) = [])
    (h2 : colNumeric (trimCols df.cols) (survivedColOf df) = true)
    (h3 : colNumeric (trimCols df.cols) (ageColOf df) = true)
    (h4 : (validRowsOf df).length = 0) :
    validate_and_insert_titanic (Except.ok df) insertOk =
      Except.error FatalError.emptyResultError := by
  simp [validate_and_insert_titanic, h1, h2, h3, h4]

/-- A loaded CSV whose single row is rejected (Survived = 5.0). -/
def df_allRejected : DataFrame :=
  { cols := [{ name := "Survived", numeric := true }, { name := "Age", numeric := true }],
    rows := [[some ⟨5, true⟩, some ⟨30, true⟩]] }

/-- C8 witness: one row, rejected by the Survived rule; `insertOk = false`
emphasises that the insert outcome is never consulted. -/
theorem C8_witness :
    (missingCols (colNamesOf df_allRejected) = []) ∧
    (colNumeric (trimCols df_allRejected.cols) (survivedColOf df_allRejected) = true) ∧
    (colNumeric (trimCols df_allRejected.cols) (ageColOf df_allRejected) = true) ∧
    ((validRowsOf df_allRejected).length = 0) ∧
    validate_and_insert_titanic (Except.ok df_allRejected) false =
      Except.error FatalError.emptyResultError :=
  ⟨by decide, by decide, by decide, by decide,
    C8_empty_fatal df_allRejected false (by decide) (by decide) (by decide) (by decide)⟩

/-- C9: a `RunStats` value is returned only on full success.  If the run
returns `Except.ok s`, then the load succeeded, no schema column was
missing, both dtype checks passed, at least one row was accepted, the insert
succeeded, and `s` is the complete final statistics — never a partial value.
Every fatal condition instead yields `Except.error` with a distinct
`FatalError` constructor (the five constructors are pairwise distinct by
construction), so fatal termination is distinguishable from success. -/
theorem C9_stats_only_on_success (load : Except String DataFrame) (insertOk : Bool)
    (s : RunStats) (h : validate_and_insert_titanic load insertOk = Except.ok s) :
    ∃ df, load = Except.ok df ∧ insertOk = true ∧
      missingCols (colNamesOf df) = [] ∧
      colNumeric (trimCols df.cols) (survivedColOf df) = true ∧
      colNumeric (trimCols df.cols) (ageColOf df) = true ∧
      (validRowsOf df).length ≠ 0 ∧
      s = { total_rows := df.rows.length,
            inserted_rows := (validRowsOf df).length,
            skipped_rows := skippedOf df,
            warnings := warningsOf df } := by
  cases load with
  | error e => simp [validate_and_insert_titanic] at h
  | ok df =>
    refine ⟨df, rfl, ?_⟩
    simp only [validate_and_insert_titanic] at h
    by_cases h1 : missingCols (colNamesOf df) ≠ []
    · rw [if_pos h1] at h
      simp at h
    · rw [if_neg h1] at h
      by_cases h2 : colNumeric (trimCols df.cols) (survivedColOf df) = false
      · rw [if_pos h2] at h
        simp at h
      · rw [if_neg h2] at h
        by_cases h3 : colNumeric (trimCols df.cols) (ageColOf df) = false
        · rw [if_pos h3] at h
          simp at h
        · rw [if_neg h3] at h
          by_cases h4 : (validRowsOf df).length = 0
          · rw [if_pos h4] at h
            simp at h
          · rw [if_neg h4] at h
            cases hio : insertOk with
            | false =>
              rw [hio] at h
              simp at h
            | true =>
              rw [hio] at h
              rw [if_pos rfl] at h
              refine ⟨rfl, not_ne_iff.mp h1, by simpa using h2, by simpa using h3, h4, ?_⟩
              exact (Except.ok.inj h).symm

/-- A loaded CSV with one valid row (float-typed values). -/
def df_good : DataFrame :=
  { cols := [{ name := "Survived", numeric := true }, { name := "Age", numeric := true }],
    rows := [[some ⟨1, true⟩, some ⟨30, true⟩]] }

/-- C9 witness: a fully successful run on `df_good`. -/
theorem C9_witness :
    (validate_and_insert_titanic (Except.ok df_good) true =
        Except.ok { total_rows := 1, inserted_rows := 1, skipped_rows := 0, warnings := [] }) ∧
    (∃ df, (Except.ok df_good : Except String DataFrame) = Except.ok df ∧ (true : Bool) = true ∧
      missingCols (colNamesOf df) = [] ∧
      colNumeric (trimCols df.cols) (survivedColOf df) = true ∧
      colNumeric (trimCols df.cols) (ageColOf df) = true ∧
      (validRowsOf df).length ≠ 0 ∧
      ({ total_rows := 1, inserted_rows := 1, skipped_rows := 0,
         warnings := [] } : RunStats) =
        { total_rows := df.rows.length, inserted_rows := (validRowsOf df).length,
          skipped_rows := skippedOf df, warnings := warningsOf df }) := by
  have h : validate_and_insert_titanic (Except.ok df_good) true =
      Except.ok { total_rows := 1, inserted_rows := 1, skipped_rows := 0, warnings := [] } := by
    decide
  exact ⟨h, C9_stats_only_on_success (Except.ok df_good) true _ h⟩
